import Mathlib

/-!
# Verification of the SWE-bench uv evaluation harness

Shallow embedding of the harness core found under `src/swebench/harness/`:

* `test_spec/test_spec.py` — `make_test_spec` (execution-plan builder, cache key),
* `test_spec/python.py` / `test_spec/create_scripts.py` — script generators,
* `uv_env.py` — `create_env` (environment manager),
* `run_eval.py` — `run_instance` (instance runner) and `get_dataset_from_preds`
  (batch work-set selection).

External collaborators that are not part of the repository's core sources
(dataset loading, network fetches of requirement manifests, the grading module,
shell subprocesses and the host filesystem) are modelled as explicit oracle /
state parameters, so every embedded function is a pure, executable Lean
definition.

Machine integers are `Nat` with explicit reduction `% 2^32` where the Python
code relies on fixed-width hashing arithmetic (SHA-256).
-/

/-! ## SHA-256 (`hashlib.sha256`), byte-level, `Nat`-based -/

/-- `2^32`, the modulus for all 32-bit SHA-256 arithmetic. -/
def M32 : Nat := 4294967296

/-- Right rotation of a 32-bit word. -/
def rotr32 (n x : Nat) : Nat := ((x >>> n) ||| (x <<< (32 - n))) % M32

/-- SHA-256 `Ch` function (bitwise choose); `¬x` is `x XOR 0xffffffff`. -/
def shaCh (x y z : Nat) : Nat := (x &&& y) ^^^ ((x ^^^ 4294967295) &&& z)

/-- SHA-256 `Maj` function (bitwise majority). -/
def shaMaj (a b c : Nat) : Nat := (a &&& b) ^^^ (a &&& c) ^^^ (b &&& c)

/-- SHA-256 big sigma-0. -/
def bigS0 (x : Nat) : Nat := rotr32 2 x ^^^ rotr32 13 x ^^^ rotr32 22 x

/-- SHA-256 big sigma-1. -/
def bigS1 (x : Nat) : Nat := rotr32 6 x ^^^ rotr32 11 x ^^^ rotr32 25 x

/-- SHA-256 small sigma-0. -/
def smallS0 (x : Nat) : Nat := rotr32 7 x ^^^ rotr32 18 x ^^^ (x >>> 3)

/-- SHA-256 small sigma-1. -/
def smallS1 (x : Nat) : Nat := rotr32 17 x ^^^ rotr32 19 x ^^^ (x >>> 10)

/-- The 64 SHA-256 round constants. -/
def K64 : List Nat :=
  [1116352408, 1899447441, 3049323471, 3921009573, 961987163, 1508970993,
   2453635748, 2870763221, 3624381080, 310598401, 607225278, 1426881987,
   1925078388, 2162078206, 2614888103, 3248222580, 3835390401, 4022224774,
   264347078, 604807628, 770255983, 1249150122, 1555081692, 1996064986,
   2554220882, 2821834349, 2952996808, 3210313671, 3336571891, 3584528711,
   113926993, 338241895, 666307205, 773529912, 1294757372, 1396182291,
   1695183700, 1986661051, 2177026350, 2456956037, 2730485921, 2820302411,
   3259730800, 3345764771, 3516065817, 3600352804, 4094571909, 275423344,
   430227734, 506948616, 659060556, 883997877, 958139571, 1322822218,
   1537002063, 1747873779, 1955562222, 2024104815, 2227730452, 2361852424,
   2428436474, 2756734187, 3204031479, 3329325298]

/-- The eight words of a SHA-256 chaining state. -/
structure Hash8 where
  w0 : Nat
  w1 : Nat
  w2 : Nat
  w3 : Nat
  w4 : Nat
  w5 : Nat
  w6 : Nat
  w7 : Nat
deriving Repr, DecidableEq

/-- SHA-256 initial chaining state. -/
def initH : Hash8 :=
  ⟨1779033703, 3144134277, 1013904242, 2773480762,
   1359893119, 2600822924, 528734635, 1541459225⟩

/-- UTF-8 encoding of one character (Python `str.encode("utf-8")`). -/
def utf8Bytes (c : Char) : List Nat :=
  let n := c.toNat
  if n < 128 then [n]
  else if n < 2048 then [192 ||| (n >>> 6), 128 ||| (n &&& 63)]
  else if n < 65536 then
    [224 ||| (n >>> 12), 128 ||| ((n >>> 6) &&& 63), 128 ||| (n &&& 63)]
  else
    [240 ||| (n >>> 18), 128 ||| ((n >>> 12) &&& 63),
     128 ||| ((n >>> 6) &&& 63), 128 ||| (n &&& 63)]

/-- UTF-8 byte sequence of a string. -/
def strBytes (s : String) : List Nat := s.data.flatMap utf8Bytes

/-- Big-endian 8-byte encoding of the bit length, as required by SHA-256 padding. -/
def lenBytes (bits : Nat) : List Nat :=
  [(bits >>> 56) &&& 255, (bits >>> 48) &&& 255, (bits >>> 40) &&& 255,
   (bits >>> 32) &&& 255, (bits >>> 24) &&& 255, (bits >>> 16) &&& 255,
   (bits >>> 8) &&& 255, bits &&& 255]

/-- SHA-256 message padding: `0x80`, zeros to 56 mod 64, then the bit length. -/
def padBytes (msg : List Nat) : List Nat :=
  msg ++ 128 :: List.replicate ((119 - msg.length % 64) % 64) 0
      ++ lenBytes (msg.length * 8)

/-- Split a byte list into 64-byte blocks (fuel-based structural recursion so
that the definition reduces inside the kernel). -/
def chunks64Go : Nat → List Nat → List (List Nat)
  | _, [] => []
  | 0, l => [l]
  | fuel + 1, l => l.take 64 :: chunks64Go fuel (l.drop 64)

/-- Split a byte list into 64-byte blocks. -/
def chunks64 (l : List Nat) : List (List Nat) := chunks64Go l.length l

/-- Big-endian 32-bit word from four bytes. -/
def beWord (a b c d : Nat) : Nat := (a <<< 24) ||| (b <<< 16) ||| (c <<< 8) ||| d

/-- Group a 64-byte block into sixteen big-endian words. -/
def toWords : List Nat → List Nat
  | a :: b :: c :: d :: rest => beWord a b c d :: toWords rest
  | _ => []

/-- Extend the sixteen message words to the 64-entry SHA-256 schedule. -/
def schedule (w16 : List Nat) : List Nat :=
  (List.range 48).foldl
    (fun w i =>
      w ++ [(smallS1 (w.getD (i + 14) 0) + w.getD (i + 9) 0 +
             smallS0 (w.getD (i + 1) 0) + w.getD i 0) % M32])
    w16

/-- One SHA-256 compression step over `(scheduleWord, roundConstant)`; the
`Hash8` fields play the roles `a`..`h` of the working variables. -/
def roundStep (st : Hash8) (wk : Nat × Nat) : Hash8 :=
  let t1 := (st.w7 + bigS1 st.w4 + shaCh st.w4 st.w5 st.w6 + wk.2 + wk.1) % M32
  let t2 := (bigS0 st.w0 + shaMaj st.w0 st.w1 st.w2) % M32
  ⟨(t1 + t2) % M32, st.w0, st.w1, st.w2, (st.w3 + t1) % M32, st.w4, st.w5, st.w6⟩

/-- SHA-256 compression of one 64-byte block into the chaining state. -/
def compressBlock (st : Hash8) (block : List Nat) : Hash8 :=
  let r := ((schedule (toWords block)).zip K64).foldl roundStep st
  ⟨(st.w0 + r.w0) % M32, (st.w1 + r.w1) % M32, (st.w2 + r.w2) % M32,
   (st.w3 + r.w3) % M32, (st.w4 + r.w4) % M32, (st.w5 + r.w5) % M32,
   (st.w6 + r.w6) % M32, (st.w7 + r.w7) % M32⟩

/-- SHA-256 digest (as eight words) of a string's UTF-8 bytes. -/
def sha256Words (s : String) : Hash8 :=
  (chunks64 (padBytes (strBytes s))).foldl compressBlock initH

/-- The sixteen lowercase hexadecimal digit characters (codes 48-57, 97-102). -/
def hexTable : List Char :=
  (List.range 16).map fun n => Char.ofNat (if n < 10 then 48 + n else 87 + n)

/-- Lowercase hex digit of `n % 16`. -/
def hexDigit (n : Nat) : Char := hexTable.getD (n % 16) '0'

/-- Eight lowercase hex characters of one 32-bit word, most significant first. -/
def hex8 (w : Nat) : List Char :=
  [hexDigit ((w >>> 28) &&& 15), hexDigit ((w >>> 24) &&& 15),
   hexDigit ((w >>> 20) &&& 15), hexDigit ((w >>> 16) &&& 15),
   hexDigit ((w >>> 12) &&& 15), hexDigit ((w >>> 8) &&& 15),
   hexDigit ((w >>> 4) &&& 15), hexDigit (w &&& 15)]

/-- Character list of `hashlib.sha256(...).hexdigest()`. -/
def sha256HexList (s : String) : List Char :=
  let d := sha256Words s
  hex8 d.w0 ++ hex8 d.w1 ++ hex8 d.w2 ++ hex8 d.w3 ++
  hex8 d.w4 ++ hex8 d.w5 ++ hex8 d.w6 ++ hex8 d.w7

/-- `hashlib.sha256(s.encode()).hexdigest()` as a string. -/
def sha256Hex (s : String) : String := String.mk (sha256HexList s)

example : sha256Hex "abc" =
    "ba7816bf8f01cfea414140de5dae2223b00361a396177a9cb410ff61f20015ad" := by
  decide

example : sha256Hex "" =
    "e3b0c44298fc1c149afbf4c8996fb92427ae41e4649b934ca495991b7852b855" := by
  decide

/-! ## Python `repr`/`str` of command lists and the cache keys

`make_test_spec` hashes `str(env_script_list)`; `_hash_scripts` in `uv_env.py`
hashes `"\n".join(scripts)`. Both take the first 22 hex characters.
-/

/-- CPython `repr` escape of a single character, given the chosen quote. -/
def pyEscapeChar (q : Char) (c : Char) : List Char :=
  if c = '\\' then ['\\', '\\']
  else if c = q then ['\\', q]
  else if c = '\n' then ['\\', 'n']
  else if c = '\r' then ['\\', 'r']
  else if c = '\t' then ['\\', 't']
  else if c.toNat < 32 || c.toNat == 127 then
    ['\\', 'x', hexDigit ((c.toNat >>> 4) &&& 15), hexDigit (c.toNat &&& 15)]
  else [c]

/-- CPython `repr` of a string: single quotes unless the string contains a
single quote and no double quote, in which case double quotes. -/
def pyReprStr (s : String) : String :=
  let hasSingle := s.data.contains '\''
  let hasDouble := s.data.contains '"'
  let q : Char := if hasSingle && !hasDouble then '"' else '\''
  String.mk (q :: s.data.flatMap (pyEscapeChar q) ++ [q])

/-- CPython `str` of a list of strings: `repr` of each element, comma-joined
inside brackets. This is the `hash_key = str(env_script_list)` input of
`make_test_spec`. -/
def pyStrList (l : List String) : String :=
  "[" ++ String.intercalate ", " (l.map pyReprStr) ++ "]"

/-- The environment cache key computed by `make_test_spec`
(`sha256(str(env_script_list)).hexdigest()[:22]`). -/
def envKeyOf (scripts : List String) : String :=
  String.mk ((sha256HexList (pyStrList scripts)).take 22)

/-- `_hash_scripts` of `uv_env.py`: sha256 of the newline-joined scripts,
first 22 hex characters (used when `create_env` receives no key). -/
def hashScripts (scripts : List String) : String :=
  String.mk ((sha256HexList (String.intercalate "\n" scripts)).take 22)

example :
    pyStrList ["cat <<'EOF_1' > x\ny\nEOF_1", "say \"hi\"", "plain"] =
      "[\"cat <<'EOF_1' > x\\ny\\nEOF_1\", 'say \"hi\"', 'plain']" := by decide

example :
    envKeyOf ["cat <<'EOF_1' > x\ny\nEOF_1", "say \"hi\"", "plain"] =
      "c7936ace84131f173b6fff" := by decide

example : pyReprStr "a\tb\x01" = "'a\\tb\\x01'" := by decide

/-- The hexdigest has exactly 64 characters. -/
theorem sha256HexList_length (s : String) : (sha256HexList s).length = 64 := by
  simp [sha256HexList, hex8]

/-- Every hexdigest character is a lowercase hex digit. -/
theorem hexDigit_mem (n : Nat) : hexDigit n ∈ hexTable := by
  have h : n % 16 < hexTable.length := by
    simp [hexTable]
    omega
  rw [hexDigit, hexTable.getD_eq_getElem '0' h]
  exact hexTable.getElem_mem h

/-- Every character produced by `hex8` is a hex digit. -/
theorem hex8_mem (w : Nat) : ∀ c ∈ hex8 w, c ∈ hexTable := by
  intro c hc
  simp only [hex8, List.mem_cons, List.not_mem_nil, or_false] at hc
  rcases hc with h|h|h|h|h|h|h|h <;> (subst h; exact hexDigit_mem _)

/-- Membership of hexdigest characters in the hex alphabet. -/
theorem sha256HexList_mem (s : String) :
    ∀ c ∈ sha256HexList s, c ∈ hexTable := by
  intro c hc
  simp only [sha256HexList, List.mem_append] at hc
  rcases hc with ((((((h|h)|h)|h)|h)|h)|h)|h <;> exact hex8_mem _ c h

/-- The cache key of `make_test_spec` has exactly 22 characters. -/
theorem envKeyOf_length (scripts : List String) : (envKeyOf scripts).length = 22 := by
  simp [envKeyOf, String.length, sha256HexList_length]

/-- Every character of the cache key is a lowercase hex digit. -/
theorem envKeyOf_hex (scripts : List String) :
    ∀ c ∈ (envKeyOf scripts).data, c ∈ hexTable := by
  intro c hc
  simp only [envKeyOf] at hc
  exact sha256HexList_mem _ c (List.take_subset _ _ hc)

/-! ## String utilities mirroring the Python constructs used by the source

All of them recurse structurally over character lists so that every embedded
function evaluates inside the kernel (`decide`/`rfl`).
-/

/-- Python `\s` character class (whitespace). -/
def isPyWs (c : Char) : Bool :=
  c = ' ' || c = '\t' || c = '\n' || c = '\r' || c = '\x0b' || c = '\x0c'

/-- Whether `l` starts with `pre` (character lists). -/
def listStartsWith : List Char → List Char → Bool
  | _, [] => true
  | [], _ :: _ => false
  | c :: cs, p :: ps => c = p && listStartsWith cs ps

/-- Fuel-driven worker for `splitOnChars`; `sep` is nonempty. -/
def splitOnGo (sep : List Char) : Nat → List Char → List Char → List (List Char)
  | _, acc, [] => [acc.reverse]
  | 0, acc, l => [acc.reverse ++ l]
  | fuel + 1, acc, c :: cs =>
    if listStartsWith (c :: cs) sep then
      acc.reverse :: splitOnGo sep fuel [] ((c :: cs).drop sep.length)
    else splitOnGo sep fuel (c :: acc) cs

/-- Python `s.split(sep)` on character lists (empty separator degenerates to
the whole input, a case the source never exercises). -/
def splitOnChars (sep l : List Char) : List (List Char) :=
  if sep.isEmpty then [l] else splitOnGo sep l.length [] l

/-- Python `s.split(sep)`. -/
def pySplit (s sep : String) : List String :=
  (splitOnChars sep.data s.data).map String.mk

/-- Python `s.replace(pat, repl)` (all occurrences, left to right). -/
def pyReplace (s pat repl : String) : String :=
  String.intercalate repl (pySplit s pat)

/-- Python `sub in s` (substring containment). -/
def hasSub (s sub : String) : Bool := 2 ≤ (pySplit s sub).length

/-- Python `s.replace(pat, repl, 1)`: replace only the first occurrence. -/
def replaceFirst (s pat repl : String) : String :=
  match pySplit s pat with
  | [] => s
  | [_] => s
  | p :: rest => p ++ repl ++ String.intercalate pat rest

/-- Python `s.startswith(pre)`. -/
def pyStartsWith (s pre : String) : Bool := listStartsWith s.data pre.data

/-- Python `s.endswith(suf)`. -/
def pyEndsWith (s suf : String) : Bool :=
  listStartsWith s.data.reverse suf.data.reverse

/-- Python `s[n:]` (drop the first `n` characters). -/
def pyDrop (s : String) (n : Nat) : String := String.mk (s.data.drop n)

/-- Python `s[:-n]` for `n ≤ len(s)` (drop the last `n` characters). -/
def pyDropRight (s : String) (n : Nat) : String :=
  String.mk (s.data.take (s.data.length - n))

/-- Python `len(s)` (in characters). -/
def pyLen (s : String) : Nat := s.data.length

/-- Python `s.strip()`. -/
def pyStrip (s : String) : String :=
  String.mk ((s.data.dropWhile isPyWs).reverse.dropWhile isPyWs |>.reverse)

/-- Leading-whitespace count of a line (`len(line) - len(line.lstrip())`). -/
def indentOf (line : String) : Nat := (line.data.takeWhile Char.isWhitespace).length

/-! ## `python.py`: requirement manifest cleaning

`REPLACE_REQ_PACKAGES` holds a single pair with a non-`None` replacement, so
only the replacement branch of `clean_requirements` / `clean_environment_yml`
is reachable and embedded.
-/

/-- `REPLACE_REQ_PACKAGES` from `test_spec/python.py`. -/
def replaceReqPackages : List (String × String) :=
  [("types-pkg_resources", "types-setuptools")]

/-- One line of `clean_requirements`: the regex
`^OLD(?=[<>=!~\s]|$)` replaced by the new package name. -/
def cleanReqLine (pr : String × String) (line : String) : String :=
  if pyStartsWith line pr.1 then
    let rest := pyDrop line (pyLen pr.1)
    match rest.data with
    | [] => pr.2 ++ rest
    | c :: _ =>
      if c = '<' || c = '>' || c = '=' || c = '!' || c = '~' || isPyWs c then
        pr.2 ++ rest
      else line
  else line

/-- `clean_requirements` from `test_spec/python.py` (multiline regex applied
line by line; `\s` cannot span a line here because `.` boundaries are `\n`). -/
def cleanRequirements (text : String) : String :=
  replaceReqPackages.foldl
    (fun t pr => String.intercalate "\n" ((pySplit t "\n").map (cleanReqLine pr)))
    text

/-- Whether a line is the `- pip:` header matched by
`^(\s*-\s*pip\s*:\s*\n)` of `clean_environment_yml` (matched within one line;
a well-formed yml never makes the trailing `\s*` span newlines). -/
def isPipHeaderLine (line : String) : Bool :=
  let afterWs := line.data.dropWhile Char.isWhitespace
  match afterWs with
  | '-' :: rest =>
    let rest2 := rest.dropWhile Char.isWhitespace
    match rest2 with
    | 'p' :: 'i' :: 'p' :: rest3 =>
      let rest4 := rest3.dropWhile Char.isWhitespace
      match rest4 with
      | ':' :: rest5 => rest5.dropWhile Char.isWhitespace = []
      | _ => false
    | _ => false
  | _ => false

/-- One line of the pip-section replacement of `clean_environment_yml`:
`^(\s*-\s*)OLD(?=[=\s]|$)` replaced by the prefix plus the new name. -/
def cleanPipLine (pr : String × String) (line : String) : String :=
  let ws1 := line.data.takeWhile Char.isWhitespace
  match line.data.drop ws1.length with
  | '-' :: rest =>
    let ws2 := rest.takeWhile Char.isWhitespace
    let body := String.mk (rest.drop ws2.length)
    if pyStartsWith body pr.1 then
      let after := pyDrop body (pyLen pr.1)
      let boundaryOk := match after.data with
        | [] => true
        | c :: _ => c = '=' || isPyWs c
      if boundaryOk then
        String.mk (ws1 ++ '-' :: ws2) ++ pr.2 ++ after
      else line
    else line
  | _ => line

/-- Index of the first line with content at indentation at most `pipIndent`
(where the pip section ends); `none` when the section runs to the end. -/
def pipBreakIdx (pipIndent : Nat) : List String → Option Nat
  | [] => none
  | l :: rest =>
    if pyStrip l = "" then (pipBreakIdx pipIndent rest).map (· + 1)
    else if indentOf l ≤ pipIndent then some 0
    else (pipBreakIdx pipIndent rest).map (· + 1)

/-- `clean_environment_yml` from `test_spec/python.py`: rewrite yanked pip
packages inside the pip section only. -/
def cleanEnvironmentYml (text : String) : String :=
  let lines := pySplit text "\n"
  match lines.findIdx? isPipHeaderLine with
  | none => text
  | some i =>
    let pipLine := (lines.drop i).headD ""
    let pipIndent := indentOf pipLine
    let before := lines.take (i + 1)
    let after := lines.drop (i + 1)
    let cleaned := fun ls => replaceReqPackages.foldl
      (fun acc pr => List.map (cleanPipLine pr) acc) ls
    match pipBreakIdx pipIndent after with
    | some ix =>
      String.intercalate "\n" before ++ "\n" ++
        String.join ((cleaned (after.take ix)).map (· ++ "\n")) ++
        String.intercalate "\n" (after.drop ix)
    | none =>
      String.intercalate "\n" before ++ "\n" ++
        String.intercalate "\n" (cleaned after)

/-! ## Data model

`SWEbenchInstance` records and the version-spec entries of
`MAP_REPO_VERSION_TO_SPECS`. The constant maps (`constants.py`), the network
fetches of `python.py`, and the generator families whose modules are not part
of the core sources (`test_spec/utils.py`, `test_spec/javascript.py`,
`utils.get_modified_files`) are supplied through the `Externals` record: they
are external inputs of the embedded functions, never stubs of embedded logic.
-/

/-- A task instance (`SWEbenchInstance`). The `FAIL_TO_PASS` / `PASS_TO_PASS`
fields are modelled as already-parsed lists (`_from_json_or_obj`). -/
structure TaskInstance where
  instanceId : String
  repo : String
  version : Option String
  baseCommit : String
  environmentSetupCommit : Option String
  testPatch : String
  failToPass : List String
  passToPass : List String
deriving Repr, DecidableEq

/-- One value of `MAP_REPO_VERSION_TO_SPECS[repo][version]`. Optional fields
model `"key" in specs` / `specs.get(key, default)` checks of the source. -/
structure VersionSpecs where
  packages : Option String
  pipPackages : Option (List String)
  preInstall : Option (List String)
  install : Option String
  testCmd : String
  evalCommands : Option (List String)
deriving Repr, DecidableEq

/-- Python exception outcomes of the plan-builder pipeline. -/
inductive PyErr where
  | keyError
  | valueError
deriving Repr, DecidableEq

/-- Network fetches performed by `python.py` (`requests.get` against the raw
URL host): the fully assembled requirements text of
`get_requirements_by_commit` and the raw `environment.yml` text; `none` models
the `ValueError` raised when no candidate path answers 200. -/
structure Net where
  reqsByCommit : String → String → Option String
  ymlByCommit : String → String → Option String

/-- Code and data outside the core sources, passed explicitly:
constant maps from `constants.py`, host facts, and the generator families
(`*_common`, `*_js`) whose modules are not under `src/`. -/
structure Externals where
  extOf : String → Option String
  specsOf : String → Option String → Option VersionSpecs
  repoInstall : String → Option String
  nonTestExts : List String
  useX86 : List String
  hostMachine : String
  startSentinel : String
  endSentinel : String
  getModifiedFiles : String → List String
  net : Net
  commonEnv : TaskInstance → VersionSpecs → String → List String
  commonRepo : VersionSpecs → String → String → String → String → List String
  commonEval : TaskInstance → VersionSpecs → String → String → String → String → List String
  jsEval : TaskInstance → VersionSpecs → String → String → String → String → List String

/-- Commit used for manifest fetches: `environment_setup_commit` when present,
else `base_commit`. -/
def commitOf (inst : TaskInstance) : String :=
  inst.environmentSetupCommit.getD inst.baseCommit

/-- `get_requirements`: fetch (oracle) then `clean_requirements`. -/
def getRequirements (net : Net) (inst : TaskInstance) : Except PyErr String :=
  match net.reqsByCommit inst.repo (commitOf inst) with
  | none => .error .valueError
  | some t => .ok (cleanRequirements t)

/-- The `name:` line renaming of `get_environment_yml_by_commit`. -/
def renameYmlName (raw envName : String) : String :=
  String.intercalate "\n"
    ((pySplit raw "\n").map fun line =>
      if pyStartsWith line "name:" then "name: " ++ envName else line)

/-- `get_environment_yml`: fetch (oracle), rename, then
`clean_environment_yml`. -/
def getEnvironmentYml (net : Net) (inst : TaskInstance) (envName : String) :
    Except PyErr String :=
  match net.ymlByCommit inst.repo (commitOf inst) with
  | none => .error .valueError
  | some raw => .ok (cleanEnvironmentYml (renameYmlName raw envName))

/-! ## `python.py` / `create_scripts.py`: the three script generators -/

/-- Mirror combination of `PYPI_MIRROR` and `TRUSTED_HOST`. -/
def uvInstallArgs : String :=
  "--index-url https://pypi.tuna.tsinghua.edu.cn/simple --trusted-host pypi.tuna.tsinghua.edu.cn"

/-- Heredoc delimiter of `make_env_script_list_py`. -/
def heredocEnv : String := "EOF_59812759871"

/-- Heredoc delimiter of `make_eval_script_list_py`. -/
def heredocTest : String := "EOF_114329324912"

/-- The trailing `pip_packages` install command, when the spec lists any. -/
def pipExtraCmds (specs : VersionSpecs) : List String :=
  match specs.pipPackages with
  | some pkgs =>
    ["uv pip install " ++ String.intercalate " " pkgs ++ " " ++ uvInstallArgs]
  | none => []

/-- `make_env_script_list_py`: environment-setup command list plus the selected
manager kind (`"conda"` for `environment.yml` manifests, else `"uv"`). -/
def makeEnvScriptListPy (x : Externals) (inst : TaskInstance)
    (specs : VersionSpecs) (envName : String) :
    Except PyErr (List String × String) :=
  let pkgsType := specs.packages.getD "requirements.txt"
  if pkgsType = "environment.yml" then
    match getEnvironmentYml x.net inst envName with
    | .error e => .error e
    | .ok ymlContent =>
      .ok (["conda config --set ssl_verify false",
            "cat <<'" ++ heredocEnv ++ "' > environment.yml\n" ++ ymlContent ++
              "\n" ++ heredocEnv,
            "conda env create --file environment.yml --name " ++ envName ++
              " --force",
            "rm environment.yml"] ++ pipExtraCmds specs, "conda")
  else
    let sysCmds := ["apt-get update",
      "apt-get install -y pkg-config libcairo2-dev libgirepository1.0-dev",
      "ldconfig"]
    let reqsTextE :=
      if pkgsType = "requirements.txt" then getRequirements x.net inst
      else .ok (pyReplace pkgsType " " "\n")
    match reqsTextE with
    | .error e => .error e
    | .ok reqsText =>
      let reqCmds :=
        if pyStrip reqsText ≠ "" then
          ["cat <<'" ++ heredocEnv ++ "' > requirements.txt\n" ++ reqsText ++
             "\n" ++ heredocEnv,
           "env PKG_CONFIG_PATH=/usr/lib/x86_64-linux-gnu/pkgconfig uv pip install -r requirements.txt " ++
             uvInstallArgs,
           "rm requirements.txt"]
        else []
      .ok (sysCmds ++ reqCmds ++ pipExtraCmds specs, "uv")

/-- `make_env_script_list` (dispatcher in `create_scripts.py`): python repos
use the `_py` generator; every other language tag uses the common generator
with manager kind `"uv"`. -/
def makeEnvScriptList (x : Externals) (inst : TaskInstance)
    (specs : VersionSpecs) (envName : String) :
    Except PyErr (List String × String) :=
  match x.extOf inst.repo with
  | none => .error .keyError
  | some ext =>
    if ext = "py" then makeEnvScriptListPy x inst specs envName
    else .ok (x.commonEnv inst specs envName, "uv")

/-- `make_repo_script_list_py`: clone, pin, detach, repo-specific installs,
then the empty-commit diff baseline. -/
def makeRepoScriptListPy (x : Externals) (specs : VersionSpecs)
    (repo repoDirectory baseCommit _envName : String) : List String :=
  ["git clone -o origin https://github.com/" ++ repo ++ " " ++ repoDirectory,
   "chmod -R 777 " ++ repoDirectory,
   "cd " ++ repoDirectory,
   "git reset --hard " ++ baseCommit,
   "git remote remove origin"]
  ++ (match x.repoInstall repo with | some c => [c] | none => [])
  ++ specs.preInstall.getD []
  ++ (match specs.install with | some c => [c] | none => [])
  ++ ["git config --global user.email setup@swebench.config",
      "git config --global user.name SWE-bench",
      "git commit --allow-empty -am SWE-bench"]

/-- `make_repo_script_list` (dispatcher). -/
def makeRepoScriptList (x : Externals) (specs : VersionSpecs)
    (repo repoDirectory baseCommit envName : String) :
    Except PyErr (List String) :=
  match x.extOf repo with
  | none => .error .keyError
  | some ext =>
    if ext = "py" then
      .ok (makeRepoScriptListPy x specs repo repoDirectory baseCommit envName)
    else .ok (x.commonRepo specs repo repoDirectory baseCommit envName)

/-- The capture of `re.findall(r"diff --git a/.* b/(.*)", test_patch)` for one
line: text after the last `" b/"` following the first `"diff --git a/"`. -/
def diffTargetOfLine (line : String) : Option String :=
  match pySplit line "diff --git a/" with
  | _ :: r :: rs =>
    let rest := String.intercalate "diff --git a/" (r :: rs)
    match pySplit rest " b/" with
    | _ :: _ :: _ => (pySplit rest " b/").getLast?
    | _ => none
  | _ => none

/-- `get_test_directives`: diff targets filtered of non-test files, with the
Django module-path transformation. -/
def getTestDirectives (x : Externals) (inst : TaskInstance) : List String :=
  if inst.repo = "swe-bench/humaneval" then ["test.py"]
  else
    let directives :=
      ((pySplit inst.testPatch "\n").filterMap diffTargetOfLine).filter
        (fun d => !(x.nonTestExts.any (fun e => pyEndsWith d e)))
    if inst.repo = "django/django" then
      directives.map fun d =>
        let d1 := if pyEndsWith d ".py" then pyDropRight d 3 else d
        let d2 := if pyStartsWith d1 "tests/" then pyDrop d1 6 else d1
        pyReplace d2 "/" "."
    else directives

/-- `make_eval_script_list_py`: reset tests, apply the test patch via heredoc,
sentinel-bracketed test command, reset again. -/
def makeEvalScriptListPy (x : Externals) (inst : TaskInstance)
    (specs : VersionSpecs) (_envName repoDirectory baseCommit testPatch : String) :
    Except PyErr (List String) :=
  let testFiles := x.getModifiedFiles testPatch
  let resetTestsCommand :=
    "git checkout " ++ baseCommit ++ " " ++ String.intercalate " " testFiles
  let applyTestPatchCommand :=
    "git apply -v - <<'" ++ heredocTest ++ "'\n" ++ testPatch ++ "\n" ++ heredocTest
  match x.specsOf inst.repo inst.version with
  | none => .error .keyError
  | some sp =>
    let testCommand :=
      String.intercalate " " (sp.testCmd :: getTestDirectives x inst)
    .ok (["cd " ++ repoDirectory]
      ++ specs.evalCommands.getD []
      ++ ["git config --global --add safe.directory " ++ repoDirectory,
          "cd " ++ repoDirectory,
          "git status",
          "git show",
          "git -c core.fileMode=false diff " ++ baseCommit]
      ++ (match specs.install with | some c => [c] | none => [])
      ++ [resetTestsCommand,
          applyTestPatchCommand,
          ": '" ++ x.startSentinel ++ "'",
          testCommand,
          ": '" ++ x.endSentinel ++ "'",
          resetTestsCommand])

/-- `make_eval_script_list` (dispatcher). -/
def makeEvalScriptList (x : Externals) (inst : TaskInstance)
    (specs : VersionSpecs) (envName repoDirectory baseCommit testPatch : String) :
    Except PyErr (List String) :=
  match x.extOf inst.repo with
  | none => .error .keyError
  | some ext =>
    if ext = "js" then
      .ok (x.jsEval inst specs envName repoDirectory baseCommit testPatch)
    else if ext = "py" then
      makeEvalScriptListPy x inst specs envName repoDirectory baseCommit testPatch
    else .ok (x.commonEval inst specs envName repoDirectory baseCommit testPatch)

/-! ## `test_spec.py`: the execution-plan builder -/

/-- The placeholder standing in for the not-yet-known cache key
(`ENV_NAME_PLACEHOLDER` of `make_test_spec`). -/
def envNamePlaceholder : String := "___ENV_NAME_PLACEHOLDER___"

/-- An execution plan (`TestSpec` dataclass). -/
structure TestSpec where
  instanceId : String
  repo : String
  version : Option String
  repoScriptList : List String
  evalScriptList : List String
  envScriptList : List String
  envKey : String
  envManager : String
  arch : String
  failToPass : List String
  passToPass : List String
  language : String
deriving Repr, DecidableEq

/-- `make_test_spec`: generate the placeholder-bearing environment commands,
hash their `str(...)` representation to 22 hex characters, substitute the
placeholder, then build repo/eval scripts and the architecture tag. -/
def makeTestSpec (x : Externals) (inst : TaskInstance) : Except PyErr TestSpec :=
  match x.specsOf inst.repo inst.version with
  | none => .error .keyError
  | some specs =>
    match makeEnvScriptList x inst specs envNamePlaceholder with
    | .error e => .error e
    | .ok (envScriptList, envManager) =>
      let envKey := envKeyOf envScriptList
      let finalEnvScriptList :=
        envScriptList.map (fun s => pyReplace s envNamePlaceholder envKey)
      match makeRepoScriptList x specs inst.repo "testbed" inst.baseCommit envKey with
      | .error e => .error e
      | .ok repoScriptList =>
        match makeEvalScriptList x inst specs envKey "testbed" inst.baseCommit
            inst.testPatch with
        | .error e => .error e
        | .ok evalScriptList =>
          match x.extOf inst.repo with
          | none => .error .keyError
          | some lang =>
            let arch :=
              if x.hostMachine = "aarch64" ∨ x.hostMachine = "arm64" then
                (if inst.instanceId ∈ x.useX86 then "x86_64" else "arm64")
              else "x86_64"
            .ok { instanceId := inst.instanceId
                  repo := inst.repo
                  version := inst.version
                  repoScriptList := repoScriptList
                  evalScriptList := evalScriptList
                  envScriptList := finalEnvScriptList
                  envKey := envKey
                  envManager := envManager
                  arch := arch
                  failToPass := inst.failToPass
                  passToPass := inst.passToPass
                  language := lang }

/-! ### Concrete fixtures used by the evaluation examples and witnesses -/

/-- A version-spec entry with an explicit package list (uv path). -/
def demoSpecs : VersionSpecs :=
  { packages := some "numpy scipy"
    pipPackages := none
    preInstall := none
    install := some "pip install -e ."
    testCmd := "pytest --no-header -rA"
    evalCommands := none }

/-- A registered python task instance. -/
def demoInst : TaskInstance :=
  { instanceId := "demo__repo-1"
    repo := "demo/repo"
    version := some "1.0"
    baseCommit := "deadbeef"
    environmentSetupCommit := none
    testPatch := "diff --git a/tests/test_a.py b/tests/test_a.py\n+assert True"
    failToPass := ["test_foo"]
    passToPass := ["test_bar"] }

/-- A second registered python task instance in a different repository. -/
def demoInst2 : TaskInstance :=
  { demoInst with instanceId := "other__proj-7", repo := "other/proj" }

/-- Externals fixture: both demo repositories are python, share the same
version-spec entry, and the network returns no manifests (unused for explicit
package lists). -/
def demoX : Externals :=
  { extOf := fun r => if r = "demo/repo" ∨ r = "other/proj" then some "py" else none
    specsOf := fun r v =>
      if (r = "demo/repo" ∨ r = "other/proj") ∧ v = some "1.0" then some demoSpecs
      else none
    repoInstall := fun _ => none
    nonTestExts := [".json", ".png", ".csv", ".txt", ".md", ".jpg", ".jpeg",
      ".pkl", ".yml", ".yaml", ".toml"]
    useX86 := []
    hostMachine := "x86_64"
    startSentinel := ">>>>> Start Test Output"
    endSentinel := ">>>>> End Test Output"
    getModifiedFiles := fun _ => ["tests/test_a.py"]
    net := { reqsByCommit := fun _ _ => none, ymlByCommit := fun _ _ => none }
    commonEnv := fun _ _ _ => []
    commonRepo := fun _ _ _ _ _ => []
    commonEval := fun _ _ _ _ _ _ => []
    jsEval := fun _ _ _ _ _ _ => [] }

set_option maxRecDepth 10000 in
example :
    (makeTestSpec demoX demoInst).toOption.map (fun ts => ts.envKey) =
      some "e164add3e80393dd6f2260" := by decide

example :
    (makeTestSpec demoX demoInst).toOption.map (fun ts => ts.envManager) =
      some "uv" := by decide

/-! ## `uv_env.py`: the environment manager `create_env`

Shell subprocesses and the host filesystem are external: `SysState.run` gives
each executed command a return code and the set of directories the command
itself creates (e.g. `uv venv` / `conda create --prefix` create the
environment directory). The Python code only ever creates the *parent*
directory (`env_path.parent.mkdir`). The list-argv invocation
`["uv", "venv", "--python", p, path]` is rendered as its space-joined command
line for the oracle.
-/

/-- Result of executing one shell command (the subprocess boundary). -/
structure CmdEffect where
  returncode : Int
  creates : List String
deriving Repr, DecidableEq

/-- Host-system oracle for `create_env`: command execution, the
`Path(LEGACY_PYTHON_PATH).exists()` probe and `shutil.which("python3.10")`. -/
structure SysState where
  run : String → CmdEffect
  legacyPythonExists : Bool
  whichPython310 : Option String

/-- Exceptions `create_env` can raise. -/
inductive EnvErr where
  | valueError (manager : String)
  | runtimeError
  | procError (cmd : String)
deriving Repr, DecidableEq

/-- `UV_ENVS_DIR` of `uv_env.py`. -/
def uvEnvsDir : String := "/root/autodl-tmp/swe_uv_envs"

/-- `CONDA_ENVS_DIR` of `uv_env.py`. -/
def condaEnvsDir : String := "/root/autodl-tmp/swe_conda_envs"

/-- `LEGACY_PYTHON_PATH` of `uv_env.py`. -/
def legacyPythonPath : String := "/root/miniconda3/envs/py38/bin/python"

/-- Character class `[a-zA-Z0-9_.-]` of the requirement regex. -/
def isNameChar (c : Char) : Bool :=
  c.isAlphanum || c = '_' || c = '.' || c = '-'

/-- Character class `[<>=!~]` of the requirement regex. -/
def isCmpChar (c : Char) : Bool :=
  c = '<' || c = '>' || c = '=' || c = '!' || c = '~'

/-- Character class `[0-9.]` of the requirement regex. -/
def isVerChar (c : Char) : Bool := c.isDigit || c = '.'

/-- One `(package, comparator, version)` capture of the requirement regex. -/
structure ReqMatch where
  pkg : String
  cmp : String
  ver : String
deriving Repr, DecidableEq

/-- `re.findall(r"([a-zA-Z0-9_.-]+)\s*([<>=!~]+)\s*([0-9\.]+)", cmd)`:
leftmost non-overlapping matches; the three character classes are mutually
disjoint with whitespace, so maximal runs coincide with regex backtracking. -/
def findMatchesGo : Nat → List Char → List ReqMatch
  | 0, _ => []
  | _, [] => []
  | fuel + 1, c :: cs =>
    let l := c :: cs
    let name := l.takeWhile isNameChar
    if name.isEmpty then findMatchesGo fuel cs
    else
      let rest1 := (l.drop name.length).dropWhile isPyWs
      let cmp := rest1.takeWhile isCmpChar
      if cmp.isEmpty then findMatchesGo fuel cs
      else
        let rest2 := (rest1.drop cmp.length).dropWhile isPyWs
        let ver := rest2.takeWhile isVerChar
        if ver.isEmpty then findMatchesGo fuel cs
        else
          ⟨String.mk name, String.mk cmp, String.mk ver⟩ ::
            findMatchesGo fuel (rest2.drop ver.length)

/-- All requirement-pattern matches in one command string. -/
def findMatches (cmd : String) : List ReqMatch :=
  findMatchesGo cmd.data.length cmd.data

/-- Digit run to `Nat`. -/
def digitsToNat (l : List Char) : Nat :=
  l.foldl (fun acc c => acc * 10 + (c.toNat - 48)) 0

/-- `packaging.version.parse` restricted to the `[0-9.]+` capture: dotted
numeric release components, `none` when parsing raises (e.g. `"1."`). -/
def parseRelease (s : String) : Option (List Nat) :=
  let parts := pySplit s "."
  if parts.any (fun p => p.data.isEmpty || p.data.any (fun c => !c.isDigit)) then
    none
  else some (parts.map (fun p => digitsToNat p.data))

/-- Lexicographic order on equal-length numeric lists. -/
def lexLt : List Nat → List Nat → Bool
  | [], _ => false
  | _ :: _, [] => false
  | x :: xs, y :: ys => x < y || (x = y && lexLt xs ys)

/-- `packaging` release comparison: pad with zeros, compare lexicographically. -/
def releaseLt (a b : List Nat) : Bool :=
  let n := max a.length b.length
  lexLt (a ++ List.replicate (n - a.length) 0) (b ++ List.replicate (n - b.length) 0)

/-- `LEGACY_TRIGGERS` of `uv_env.py`. -/
def legacyTriggers : List (String × List Nat) :=
  [("numpy", [1, 22, 0]), ("scipy", [1, 7, 0])]

/-- The scan of `_decide_python_version`: some command pins a trigger package
below its threshold (the comparator is ignored by the source; parse failures
are swallowed). -/
def scriptTriggersLegacy (scripts : List String) : Bool :=
  scripts.any fun cmd =>
    (findMatches cmd).any fun m =>
      match legacyTriggers.lookup m.pkg with
      | none => false
      | some threshold =>
        match parseRelease m.ver with
        | none => false
        | some rel => releaseLt rel threshold

/-- `_decide_python_version`: legacy interpreter for legacy pins (RuntimeError
when the isolated interpreter is missing), else `shutil.which("python3.10")`
(RuntimeError when absent). -/
def decidePythonVersion (sys : SysState) (scripts : List String) :
    Except EnvErr (String × String) :=
  if scriptTriggersLegacy scripts then
    if sys.legacyPythonExists then .ok (legacyPythonPath, "python3.8")
    else .error .runtimeError
  else
    match sys.whichPython310 with
    | some p => .ok (p, "python3.10")
    | none => .error .runtimeError

/-- Remainder after one match of `(-n|--name)\s+\S+` at the list head
(`-n` is tried before `--name`, as in the alternation). -/
def matchNameTok (l : List Char) : Option (List Char) :=
  let tryTok := fun (tok : List Char) =>
    if listStartsWith l tok then
      let r1 := l.drop tok.length
      let ws := r1.takeWhile isPyWs
      if ws.isEmpty then none
      else
        let r2 := r1.drop ws.length
        let nw := r2.takeWhile (fun c => !isPyWs c)
        if nw.isEmpty then none else some (r2.drop nw.length)
    else none
  match tryTok ['-', 'n'] with
  | some r => some r
  | none => tryTok ['-', '-', 'n', 'a', 'm', 'e']

/-- `re.sub(r'(-n|--name)\s+\S+', '', cmd)` (all occurrences). -/
def removeNameArgGo : Nat → List Char → List Char
  | 0, l => l
  | _, [] => []
  | fuel + 1, c :: cs =>
    match matchNameTok (c :: cs) with
    | some r => removeNameArgGo fuel r
    | none => c :: removeNameArgGo fuel cs

/-- String form of the `-n`/`--name` removal. -/
def removeNameArg (s : String) : String :=
  String.mk (removeNameArgGo s.data.length s.data)

/-- The conda command rewrite of `create_env`: strip name flags and force an
explicit `--prefix` at the deterministic cache path. -/
def condaRewriteCmd (envPath : String) (cmd : String) : String :=
  if hasSub cmd "conda env create" || hasSub cmd "conda create" then
    let c1 := removeNameArg cmd
    if hasSub c1 "--prefix" then c1
    else replaceFirst c1 "create" ("create --prefix " ++ envPath)
  else cmd

/-- Outcome of running a command sequence with `check=True` semantics:
stops at the first failing command; its filesystem effects still apply. -/
structure CmdsResult where
  fsEnv : List String
  executed : List String
  failed : Option String
deriving Repr, DecidableEq

/-- Execute commands in order until one fails. -/
def runCmds (sys : SysState) : List String → List String → CmdsResult
  | fs, [] => ⟨fs, [], none⟩
  | fs, c :: rest =>
    let eff := sys.run c
    let fs1 := eff.creates ++ fs
    if eff.returncode = 0 then
      let r := runCmds sys fs1 rest
      ⟨r.fsEnv, c :: r.executed, r.failed⟩
    else ⟨fs1, [c], some c⟩

/-- Decidable equality for `Except` results, used by concrete evaluations. -/
instance instDecEqExcept {ε α : Type} [DecidableEq ε] [DecidableEq α] :
    DecidableEq (Except ε α) := fun x y =>
  match x, y with
  | .ok a, .ok b => decidable_of_iff (a = b) (by simp)
  | .error a, .error b => decidable_of_iff (a = b) (by simp)
  | .ok _, .error _ => isFalse (fun h => Except.noConfusion h)
  | .error _, .ok _ => isFalse (fun h => Except.noConfusion h)

/-- Result of one `create_env` call: the returned path or raised exception,
the resulting directory set, and the commands that were executed. -/
structure EnvResult where
  result : Except EnvErr String
  fsEnv : List String
  executed : List String
deriving Repr, DecidableEq

/-- `create_env(install_scripts, env_manager, env_key=None)` of `uv_env.py`.
The final `PATH` injection mutates ambient process state only and is not part
of the observable result. -/
def createEnv (sys : SysState) (fsEnv : List String)
    (installScripts : List String) (envManager : String)
    (envKeyArg : Option String) : EnvResult :=
  let envKey := envKeyArg.getD (hashScripts installScripts)
  if envManager = "conda" then
    let envPath := condaEnvsDir ++ "/" ++ envKey
    if fsEnv.contains envPath then ⟨.ok envPath, fsEnv, []⟩
    else
      let fs1 := condaEnvsDir :: fsEnv
      let cmds := installScripts.map (condaRewriteCmd envPath)
      let r := runCmds sys fs1 cmds
      match r.failed with
      | some c => ⟨.error (.procError c), r.fsEnv, r.executed⟩
      | none => ⟨.ok envPath, r.fsEnv, r.executed⟩
  else if envManager = "uv" then
    let envPath := uvEnvsDir ++ "/" ++ envKey
    if fsEnv.contains envPath then ⟨.ok envPath, fsEnv, []⟩
    else
      let fs1 := uvEnvsDir :: fsEnv
      match decidePythonVersion sys installScripts with
      | .error e => ⟨.error e, fs1, []⟩
      | .ok (pyPath, _) =>
        let cmds := ("uv venv --python " ++ pyPath ++ " " ++ envPath) ::
          "uv pip install 'pip<24' 'setuptools<60' wheel" :: installScripts
        let r := runCmds sys fs1 cmds
        match r.failed with
        | some c => ⟨.error (.procError c), r.fsEnv, r.executed⟩
        | none => ⟨.ok envPath, r.fsEnv, r.executed⟩
  else ⟨.error (.valueError envManager), fsEnv, []⟩

/-! ## `run_eval.py`: the instance runner `run_instance`

The grading collaborator (`grading.get_eval_report`) and the behaviour of the
spawned shell processes are oracle inputs. Contents of JSON artifacts are kept
as raw strings; `ReportVal.loaded` marks a report parsed back from the existing
artifact, `ReportVal.generated` one freshly produced by the grader. File names
(`report.json`, `run_instance.log`, `patch.diff`, `repo.sh`, `eval.sh`,
`eval_out.txt`, `work/`) are the per-instance layout named in the constants
module (not under `src/`) and spelled out by the spec.
-/

/-- `GIT_APPLY_CMDS` of `run_eval.py`, in order: strict apply, reject-file
fallback, fuzzy unified-diff apply. -/
def gitApplyCmds : List String :=
  ["git apply --verbose", "git apply --verbose --reject",
   "patch --batch --fuzz=5 -p1 -i"]

/-- One prediction entry: model name and patch text (`None` possible). -/
structure Prediction where
  model : String
  patch : Option String
deriving Repr, DecidableEq

/-- The filesystem state relevant to one `run_instance` call. -/
structure RunFS where
  envDirs : List String
  reportExists : Bool
  reportContent : String
  testOutputExists : Bool
  testOutputContent : String
  workDirExists : Bool

/-- Oracle for the external steps of one instance run. -/
structure RunOracle where
  repoRc : Int
  patchRc : Nat → Int
  patchOut : Nat → String
  evalTimesOut : Bool
  evalOutput : String
  gradeOk : Bool
  gradeReport : String → String

/-- Where a returned report came from. -/
inductive ReportVal where
  | loaded (raw : String)
  | generated (raw : String)
deriving Repr, DecidableEq

/-- The logged cause when `run_instance` catches an exception and returns
`None` (the instance is skipped). -/
inductive SkipReason where
  | patchFailed (lastOut : String)
  | timedOut (seconds : Nat)
  | repoScriptError
  | gradingError
deriving Repr, DecidableEq

/-- An exception that escapes `run_instance`. -/
inductive UncaughtExc where
  | rewriteMissingOutput
  | envError (e : EnvErr)
deriving Repr, DecidableEq

/-- Observable outcome of `run_instance`. -/
inductive RunOutcome where
  | done (instanceId : String) (report : ReportVal)
  | skipped (r : SkipReason)
  | uncaught (e : UncaughtExc)
deriving Repr, DecidableEq

/-- Full observable behaviour of one `run_instance` call: outcome, the
arguments of every `create_env` call, commands run inside `create_env`,
subprocess invocations made by `run_instance` itself, files written under the
instance log directory, and the report / captured-output artifacts. -/
structure RunResult where
  outcome : RunOutcome
  createEnvArgs : List (List String × String × Option String)
  envProcs : List String
  procs : List String
  filesWritten : List String
  reportWritten : Option String
  evalOutContent : Option String
deriving Repr, DecidableEq

/-- Index of the first patch strategy whose command exits 0. -/
def firstPatchSuccess (rc : Nat → Int) : Option Nat :=
  (List.range gitApplyCmds.length).find? (fun i => rc i = 0)

/-- Outcome of the `try:` block of `run_instance` (source lines 126-209):
repo-setup script (`check=True`), the ordered patch-strategy loop, the eval
script under the wall-clock timeout, then grading and report persistence.
Every exception arising here is caught by the
`except EvaluationError` / `except Exception` handlers. -/
structure TryResult where
  outcome : RunOutcome
  procs : List String
  reportWritten : Option String
  evalOutContent : Option String
deriving Repr, DecidableEq

/-- The `try:` block of `run_instance`. -/
def runInstanceTry (o : RunOracle) (instanceId envPath logDir : String)
    (timeout : Option Nat) : TryResult :=
  let repoCmd := "bash " ++ logDir ++ "/repo.sh"
  if o.repoRc ≠ 0 then
    ⟨.skipped .repoScriptError, [repoCmd], none, none⟩
  else
    let patchCmd := fun i =>
      "source " ++ envPath ++ "/bin/activate && " ++ (gitApplyCmds.getD i "") ++
        " " ++ logDir ++ "/patch.diff"
    match firstPatchSuccess o.patchRc with
    | none =>
      let tried := (List.range gitApplyCmds.length).map patchCmd
      ⟨.skipped (.patchFailed (o.patchOut (gitApplyCmds.length - 1))),
        repoCmd :: tried, none, none⟩
    | some i =>
      let tried := (List.range (i + 1)).map patchCmd
      let evalCmd :=
        "source " ++ envPath ++ "/bin/activate && bash " ++ logDir ++ "/eval.sh"
      match timeout, o.evalTimesOut with
      | some t, true =>
        ⟨.skipped (.timedOut t), repoCmd :: tried ++ [evalCmd], none,
          some (o.evalOutput ++ "\n\nTimeout error: " ++ toString t ++
            " seconds exceeded.")⟩
      | _, _ =>
        if o.gradeOk then
          let report := o.gradeReport o.evalOutput
          ⟨.done instanceId (.generated report), repoCmd :: tried ++ [evalCmd],
            some report, some o.evalOutput⟩
        else
          ⟨.skipped .gradingError, repoCmd :: tried ++ [evalCmd], none,
            some o.evalOutput⟩

/-- `run_instance(test_spec, pred, run_id, timeout, rewrite_reports)`.
`logRoot` stands for `RUN_EVALUATION_LOG_DIR`. Note the source calls
`create_env(test_spec.env_script_list, test_spec.env_key)` positionally, so
the plan's cache key is bound to the `env_manager` parameter and no explicit
key is passed; this call happens *before* the `try:` block. -/
def runInstance (sys : SysState) (logRoot : String) (spec : TestSpec)
    (pred : Prediction) (runId : String) (timeout : Option Nat)
    (rewriteReports : Bool) (fs : RunFS) (o : RunOracle) : RunResult :=
  let modelEsc := pyReplace pred.model "/" "__"
  let logDir := logRoot ++ "/" ++ runId ++ "/" ++ modelEsc ++ "/" ++
    spec.instanceId
  if rewriteReports then
    if !fs.testOutputExists then
      ⟨.uncaught .rewriteMissingOutput, [], [], [], [], none, none⟩
    else
      let report := o.gradeReport fs.testOutputContent
      ⟨.done spec.instanceId (.generated report), [], [], [], ["report.json"],
        some report, none⟩
  else if fs.reportExists then
    ⟨.done spec.instanceId (.loaded fs.reportContent), [], [], [], [], none, none⟩
  else
    let envCall := createEnv sys fs.envDirs spec.envScriptList spec.envKey none
    let args := [(spec.envScriptList, spec.envKey, (none : Option String))]
    match envCall.result with
    | .error e =>
      ⟨.uncaught (.envError e), args, envCall.executed, [],
        ["run_instance.log"], none, none⟩
    | .ok envPath =>
      let rmProcs :=
        if fs.workDirExists then ["rm -rf " ++ logDir ++ "/work"] else []
      let tr := runInstanceTry o spec.instanceId envPath logDir timeout
      ⟨tr.outcome, args, envCall.executed, rmProcs ++ tr.procs,
        ["run_instance.log", "repo.sh", "eval.sh", "patch.diff"] ++
          (match tr.reportWritten with | some _ => ["report.json"] | none => []) ++
          (match tr.evalOutContent with | some _ => ["eval_out.txt"] | none => []),
        tr.reportWritten, tr.evalOutContent⟩

/-! ## `run_eval.py`: `get_dataset_from_preds` (batch work-set selection) -/

/-- Report / captured-output existence on disk, indexed by the
slash-escaped model name and the instance id (under the ambient run id). -/
structure BatchFS where
  reportExists : String → String → Bool
  testOutputExists : String → String → Bool

/-- Python dict lookup over an association list with unique keys. -/
def findPred : List (String × Prediction) → String → Option Prediction
  | [], _ => none
  | (k, v) :: rest, key => if k = key then some v else findPred rest key

/-- `get_dataset_from_preds`: the returned work subset plus whether the
missing-predictions warning was printed; `.error` is the `ValueError` raised
for prediction ids absent from the dataset. -/
def getDatasetFromPreds (fs : BatchFS) (dataset : List TaskInstance)
    (instanceIds : List String) (preds : List (String × Prediction))
    (rewriteReports : Bool) (excludeCompleted : Bool) :
    Except String (List TaskInstance × Bool) :=
  let datasetIds := dataset.map (fun i => i.instanceId)
  let missingPreds := instanceIds.filter (fun i => (findPred preds i).isNone)
  let warned := !instanceIds.isEmpty && !missingPreds.isEmpty
  let predKeys := preds.map (fun kv => kv.1)
  let badPredIds := predKeys.filter (fun k => !datasetIds.contains k)
  if !badPredIds.isEmpty then
    .error "Some prediction IDs not found in dataset!"
  else
    let ds1 :=
      if !instanceIds.isEmpty then
        dataset.filter (fun i => instanceIds.contains i.instanceId)
      else dataset
    if rewriteReports then
      let testOutputIds := ds1.filterMap (fun i =>
        match findPred preds i.instanceId with
        | none => none
        | some p =>
          if fs.testOutputExists (pyReplace p.model "/" "__") i.instanceId then
            some i.instanceId
          else none)
      .ok (ds1.filter (fun i =>
        predKeys.contains i.instanceId && testOutputIds.contains i.instanceId),
        warned)
    else
      let completedIds := ds1.filterMap (fun i =>
        match findPred preds i.instanceId with
        | none => none
        | some p =>
          if fs.reportExists (pyReplace p.model "/" "__") i.instanceId then
            some i.instanceId
          else none)
      let ds2 :=
        if !completedIds.isEmpty && excludeCompleted then
          ds1.filter (fun i => !completedIds.contains i.instanceId)
        else ds1
      let emptyPatchIds :=
        (preds.filter (fun kv => kv.2.patch == some "" || kv.2.patch == none)).map
          (fun kv => kv.1)
      .ok (ds2.filter (fun i =>
        predKeys.contains i.instanceId && !emptyPatchIds.contains i.instanceId),
        warned)

/-! ## Theorems -/

/-- Helper: once the version spec is registered and environment generation
succeeds, `make_test_spec` succeeds, its cache key is the digest of the
placeholder-bearing scripts, and its final script list is the substituted
one. -/
theorem makeTestSpec_key_of_env (x : Externals) (inst : TaskInstance)
    (specs : VersionSpecs) (scripts : List String) (mgr : String)
    (hspec : x.specsOf inst.repo inst.version = some specs)
    (henv : makeEnvScriptList x inst specs envNamePlaceholder = .ok (scripts, mgr)) :
    ∃ ts, makeTestSpec x inst = .ok ts ∧ ts.envKey = envKeyOf scripts ∧
      ts.envScriptList =
        scripts.map (fun s => pyReplace s envNamePlaceholder (envKeyOf scripts)) ∧
      ts.envManager = mgr := by
  cases hx : x.extOf inst.repo with
  | none => simp [makeEnvScriptList, hx] at henv
  | some ext =>
    have hrepo : ∃ rl, makeRepoScriptList x specs inst.repo "testbed"
        inst.baseCommit (envKeyOf scripts) = .ok rl := by
      simp only [makeRepoScriptList, hx]
      by_cases hpy : ext = "py" <;> simp [hpy]
    have heval : ∃ el, makeEvalScriptList x inst specs (envKeyOf scripts)
        "testbed" inst.baseCommit inst.testPatch = .ok el := by
      simp only [makeEvalScriptList, hx]
      by_cases hjs : ext = "js"
      · simp [hjs]
      · by_cases hpy : ext = "py"
        · simp [hjs, hpy, makeEvalScriptListPy, hspec]
        · simp [hjs, hpy]
    obtain ⟨rl, hrl⟩ := hrepo
    obtain ⟨el, hel⟩ := heval
    refine ⟨{ instanceId := inst.instanceId, repo := inst.repo,
              version := inst.version, repoScriptList := rl,
              evalScriptList := el,
              envScriptList :=
                scripts.map (fun s => pyReplace s envNamePlaceholder (envKeyOf scripts)),
              envKey := envKeyOf scripts, envManager := mgr,
              arch := if x.hostMachine = "aarch64" ∨ x.hostMachine = "arm64" then
                  (if inst.instanceId ∈ x.useX86 then "x86_64" else "arm64")
                else "x86_64",
              failToPass := inst.failToPass, passToPass := inst.passToPass,
              language := ext }, ?_, rfl, rfl, rfl⟩
    simp only [makeTestSpec, hspec, henv, hrl, hel, hx]

/-- C2: for every task instance with a registered (repository, version) spec,
`make_test_spec` computes the environment cache key as the first 22
hexadecimal characters of the SHA-256 hexdigest of the Python string
representation of the placeholder-bearing environment command sequence, and
the plan's final environment sequence is that sequence with every placeholder
occurrence replaced by the key. -/
theorem c2_cache_key_digest (x : Externals) (inst : TaskInstance)
    (specs : VersionSpecs) (scripts : List String) (mgr : String)
    (hspec : x.specsOf inst.repo inst.version = some specs)
    (henv : makeEnvScriptList x inst specs envNamePlaceholder = .ok (scripts, mgr)) :
    ∃ ts, makeTestSpec x inst = .ok ts ∧
      ts.envKey = String.mk ((sha256HexList (pyStrList scripts)).take 22) ∧
      pyLen ts.envKey = 22 ∧
      (∀ c ∈ ts.envKey.data, c ∈ hexTable) ∧
      ts.envScriptList =
        scripts.map (fun s => pyReplace s envNamePlaceholder ts.envKey) := by
  obtain ⟨ts, hts, hkey, hsubst, _⟩ :=
    makeTestSpec_key_of_env x inst specs scripts mgr hspec henv
  refine ⟨ts, hts, hkey, ?_, ?_, ?_⟩
  · rw [hkey]
    exact envKeyOf_length scripts
  · rw [hkey]
    exact envKeyOf_hex scripts
  · rw [hsubst, hkey]

/-- The placeholder-bearing environment commands of the demo instance. -/
def demoEnvScripts : List String :=
  ["apt-get update",
   "apt-get install -y pkg-config libcairo2-dev libgirepository1.0-dev",
   "ldconfig",
   "cat <<'EOF_59812759871' > requirements.txt\nnumpy\nscipy\nEOF_59812759871",
   "env PKG_CONFIG_PATH=/usr/lib/x86_64-linux-gnu/pkgconfig uv pip install -r requirements.txt --index-url https://pypi.tuna.tsinghua.edu.cn/simple --trusted-host pypi.tuna.tsinghua.edu.cn",
   "rm requirements.txt"]

set_option maxRecDepth 100000 in
/-- C2 witness: the demo instance. -/
theorem c2_cache_key_digest_witness :
    demoX.specsOf demoInst.repo demoInst.version = some demoSpecs ∧
    (∃ scripts mgr, makeEnvScriptList demoX demoInst demoSpecs envNamePlaceholder =
      .ok (scripts, mgr) ∧
      ∃ ts, makeTestSpec demoX demoInst = .ok ts ∧
        ts.envKey = String.mk ((sha256HexList (pyStrList scripts)).take 22) ∧
        pyLen ts.envKey = 22 ∧
        (∀ c ∈ ts.envKey.data, c ∈ hexTable) ∧
        ts.envScriptList =
          scripts.map (fun s => pyReplace s envNamePlaceholder ts.envKey)) := by
  exact ⟨by decide, demoEnvScripts, "uv", by decide,
    c2_cache_key_digest demoX demoInst demoSpecs demoEnvScripts "uv"
      (by decide) (by decide)⟩

/-- C3: instances whose environment generation yields the same
placeholder-bearing command sequence get the same cache key (the key is a
function of that sequence alone), and for python instances the generated
sequence does not depend on the repository identity beyond the fetched
manifest: equal fetched manifests give equal sequences. -/
theorem c3_key_reuse :
    (∀ (x1 x2 : Externals) (i1 i2 : TaskInstance) (s1 s2 : VersionSpecs)
      (sc1 sc2 : List String) (m1 m2 : String),
      x1.specsOf i1.repo i1.version = some s1 →
      x2.specsOf i2.repo i2.version = some s2 →
      makeEnvScriptList x1 i1 s1 envNamePlaceholder = .ok (sc1, m1) →
      makeEnvScriptList x2 i2 s2 envNamePlaceholder = .ok (sc2, m2) →
      sc1 = sc2 →
      Except.map (fun ts => ts.envKey) (makeTestSpec x1 i1) =
        Except.map (fun ts => ts.envKey) (makeTestSpec x2 i2)) ∧
    (∀ (x : Externals) (i1 i2 : TaskInstance) (specs : VersionSpecs) (n : String),
      x.net.reqsByCommit i1.repo (commitOf i1) =
        x.net.reqsByCommit i2.repo (commitOf i2) →
      x.net.ymlByCommit i1.repo (commitOf i1) =
        x.net.ymlByCommit i2.repo (commitOf i2) →
      makeEnvScriptListPy x i1 specs n = makeEnvScriptListPy x i2 specs n) := by
  constructor
  · intro x1 x2 i1 i2 s1 s2 sc1 sc2 m1 m2 h1 h2 e1 e2 hsc
    obtain ⟨ts1, ht1, hk1, _, _⟩ := makeTestSpec_key_of_env x1 i1 s1 sc1 m1 h1 e1
    obtain ⟨ts2, ht2, hk2, _, _⟩ := makeTestSpec_key_of_env x2 i2 s2 sc2 m2 h2 e2
    rw [ht1, ht2]
    simp only [Except.map]
    rw [hk1, hk2, hsc]
  · intro x i1 i2 specs n hr hy
    simp only [makeEnvScriptListPy, getRequirements, getEnvironmentYml, hr, hy]

set_option maxRecDepth 400000 in
/-- C3 witness: the two demo instances live in different repositories yet get
the same placeholder-bearing sequence, hence the same cache key. -/
theorem c3_key_reuse_witness :
    (demoInst.repo ≠ demoInst2.repo ∧
     Except.map (fun ts => ts.envKey) (makeTestSpec demoX demoInst) =
       Except.map (fun ts => ts.envKey) (makeTestSpec demoX demoInst2)) ∧
    makeEnvScriptListPy demoX demoInst demoSpecs "n" =
      makeEnvScriptListPy demoX demoInst2 demoSpecs "n" := by
  refine ⟨⟨by decide, ?_⟩, ?_⟩
  · exact c3_key_reuse.1 demoX demoX demoInst demoInst2 demoSpecs demoSpecs
      demoEnvScripts demoEnvScripts "uv" "uv" (by decide) (by decide)
      (by decide) (by decide) rfl
  · exact c3_key_reuse.2 demoX demoInst demoInst2 demoSpecs "n" rfl rfl

/-! ### Fixtures for the instance-runner theorems -/

/-- A concrete execution plan whose cache key is a 22-character digest. -/
def demoTestSpec : TestSpec :=
  { instanceId := "demo__repo-1"
    repo := "demo/repo"
    version := some "1.0"
    repoScriptList := ["git clone -o origin https://github.com/demo/repo testbed"]
    evalScriptList := ["cd testbed"]
    envScriptList := ["true"]
    envKey := "e164add3e80393dd6f2260"
    envManager := "uv"
    arch := "x86_64"
    failToPass := ["test_foo"]
    passToPass := ["test_bar"]
    language := "py" }

/-- The same plan with `env_key = "uv"`: the only shape of plan under which
the misrouted `create_env` call can take the uv branch. -/
def demoSpecUvKey : TestSpec := { demoTestSpec with envKey := "uv" }

/-- A prediction carrying a model name with a slash and a nonempty patch. -/
def demoPrediction : Prediction := { model := "m/L", patch := some "patch" }

/-- Benign system oracle: every command succeeds and creates nothing. -/
def demoSys : SysState :=
  { run := fun _ => ⟨0, []⟩
    legacyPythonExists := true
    whichPython310 := some "/usr/bin/python3.10" }

/-- System oracle where every command fails. -/
def sysAllFail : SysState :=
  { run := fun _ => ⟨1, []⟩
    legacyPythonExists := true
    whichPython310 := some "/usr/bin/python3.10" }

/-- Filesystem with an existing report artifact. -/
def demoFsHit : RunFS :=
  { envDirs := [], reportExists := true, reportContent := "resolved: true"
    testOutputExists := false, testOutputContent := "", workDirExists := false }

/-- Filesystem with no artifacts at all. -/
def demoFsMiss : RunFS :=
  { envDirs := [], reportExists := false, reportContent := ""
    testOutputExists := false, testOutputContent := "", workDirExists := false }

/-- Filesystem where the uv environment for `hashScripts ["true"]` is cached. -/
def fsEnvCached : RunFS :=
  { demoFsMiss with envDirs := ["/root/autodl-tmp/swe_uv_envs/b5bea41b6c623f7c09f1bf"] }

/-- Benign run oracle: everything succeeds on the first try. -/
def demoOracle : RunOracle :=
  { repoRc := 0, patchRc := fun _ => 0, patchOut := fun _ => ""
    evalTimesOut := false, evalOutput := "out", gradeOk := true
    gradeReport := fun s => "graded:" ++ s }

/-- Run oracle where strict and reject-file apply fail and only the fuzzy
strategy exits 0. -/
def oracleFuzzy : RunOracle :=
  { demoOracle with patchRc := fun i => if i = 2 then 0 else 1 }

/-- Run oracle where the eval script exceeds the wall-clock timeout. -/
def oracleTimeout : RunOracle := { demoOracle with evalTimesOut := true }

/-- C4: outside rewrite mode, an existing report artifact short-circuits
`run_instance`: the loaded report is returned and nothing at all is executed
or written — no `create_env` call, no subprocess, no file. -/
theorem c4_report_cache_hit (sys : SysState) (logRoot : String) (spec : TestSpec)
    (pred : Prediction) (runId : String) (timeout : Option Nat) (fs : RunFS)
    (o : RunOracle) (h : fs.reportExists = true) :
    runInstance sys logRoot spec pred runId timeout false fs o =
      { outcome := .done spec.instanceId (.loaded fs.reportContent)
        createEnvArgs := [], envProcs := [], procs := [], filesWritten := []
        reportWritten := none, evalOutContent := none } := by
  simp [runInstance, h]

/-- C4 witness. -/
theorem c4_report_cache_hit_witness :
    demoFsHit.reportExists = true ∧
    runInstance demoSys "/logs" demoTestSpec demoPrediction "run1" (some 1800)
        false demoFsHit demoOracle =
      { outcome := .done "demo__repo-1" (.loaded "resolved: true")
        createEnvArgs := [], envProcs := [], procs := [], filesWritten := []
        reportWritten := none, evalOutContent := none } :=
  ⟨rfl, c4_report_cache_hit demoSys "/logs" demoTestSpec demoPrediction "run1"
    (some 1800) demoFsHit demoOracle rfl⟩

/-- C1 (code bug): in normal mode `run_instance` calls
`create_env(test_spec.env_script_list, test_spec.env_key)` positionally, so
the plan's cache key — not the plan's `env_manager` kind — is bound to the
manager parameter; since a 22-character digest is neither `"uv"` nor
`"conda"`, `create_env` raises `ValueError` instead of selecting the backend
recorded in the plan. -/
theorem c1_manager_arg_misrouted (sys : SysState) (logRoot : String)
    (spec : TestSpec) (pred : Prediction) (runId : String)
    (timeout : Option Nat) (fs : RunFS) (o : RunOracle)
    (hrep : fs.reportExists = false)
    (hu : spec.envKey ≠ "uv") (hc : spec.envKey ≠ "conda") :
    (runInstance sys logRoot spec pred runId timeout false fs o).createEnvArgs =
      [(spec.envScriptList, spec.envKey, none)] ∧
    (runInstance sys logRoot spec pred runId timeout false fs o).outcome =
      .uncaught (.envError (.valueError spec.envKey)) := by
  constructor <;> simp [runInstance, hrep, createEnv, hu, hc]

/-- C1 witness: the concrete plan with its hex cache key. -/
theorem c1_manager_arg_misrouted_witness :
    demoFsMiss.reportExists = false ∧
    demoTestSpec.envKey ≠ "uv" ∧ demoTestSpec.envKey ≠ "conda" ∧
    demoTestSpec.envManager = "uv" ∧
    ((runInstance demoSys "/logs" demoTestSpec demoPrediction "run1" (some 1800)
        false demoFsMiss demoOracle).createEnvArgs =
      [(demoTestSpec.envScriptList, demoTestSpec.envKey, none)] ∧
     (runInstance demoSys "/logs" demoTestSpec demoPrediction "run1" (some 1800)
        false demoFsMiss demoOracle).outcome =
      .uncaught (.envError (.valueError demoTestSpec.envKey))) :=
  ⟨rfl, by decide, by decide, rfl,
    c1_manager_arg_misrouted demoSys "/logs" demoTestSpec demoPrediction "run1"
      (some 1800) demoFsMiss demoOracle rfl (by decide) (by decide)⟩

/-- C5 (code bug): the ordered fallback list exists (`GIT_APPLY_CMDS`), but a
run whose patch fails strict apply and succeeds under the fuzzy strategy still
cannot succeed: the misrouted `create_env` call raises before any patch
command runs, so the run ends in an uncaught `ValueError` with zero
subprocess invocations. -/
theorem c5_fuzzy_fallback_unreachable :
    oracleFuzzy.patchRc 0 = 1 ∧ oracleFuzzy.patchRc 1 = 1 ∧
    oracleFuzzy.patchRc 2 = 0 ∧
    (runInstance demoSys "/logs" demoTestSpec demoPrediction "run1" (some 1800)
      false demoFsMiss oracleFuzzy).procs = [] ∧
    (runInstance demoSys "/logs" demoTestSpec demoPrediction "run1" (some 1800)
      false demoFsMiss oracleFuzzy).outcome =
      .uncaught (.envError (.valueError "e164add3e80393dd6f2260")) := by
  decide

/-- Helper: no exception escapes the `try:` block of `run_instance`; every
branch ends in a returned report or a caught-and-logged skip. -/
theorem runInstanceTry_no_uncaught (o : RunOracle) (iid ep ld : String)
    (t : Option Nat) (e : UncaughtExc) :
    (runInstanceTry o iid ep ld t).outcome ≠ .uncaught e := by
  by_cases hr : o.repoRc ≠ 0
  · simp [runInstanceTry, hr]
  · cases hp : firstPatchSuccess o.patchRc with
    | none => simp [runInstanceTry, hr, hp]
    | some i =>
      cases t with
      | none =>
        by_cases hg : o.gradeOk <;> simp [runInstanceTry, hr, hp, hg]
      | some tv =>
        cases he : o.evalTimesOut <;> by_cases hg : o.gradeOk <;>
          simp [runInstanceTry, hr, hp, he, hg]

set_option maxRecDepth 400000 in
/-- C6 counterexample: in normal mode an environment-materialization failure
(here: the `uv venv` command exiting nonzero) escapes `run_instance`
uncaught — the `create_env` call sits before the `try:` block. -/
theorem c6_counterexample :
    (runInstance sysAllFail "/logs" demoSpecUvKey demoPrediction "run1"
      (some 1800) false demoFsMiss demoOracle).outcome =
      .uncaught (.envError (.procError
        "uv venv --python /usr/bin/python3.10 /root/autodl-tmp/swe_uv_envs/b5bea41b6c623f7c09f1bf")) := by
  decide

/-- C6 (amended): every exception raised inside the `try:` block (repo setup
onward) is caught and the instance merely skipped, and in normal mode the only
exceptions that escape `run_instance` are those raised by the
environment-materialization call performed before the `try:` block. -/
theorem c6_exceptions_contained_after_env :
    (∀ (o : RunOracle) (iid ep ld : String) (t : Option Nat) (e : UncaughtExc),
      (runInstanceTry o iid ep ld t).outcome ≠ .uncaught e) ∧
    (∀ (sys : SysState) (logRoot : String) (spec : TestSpec)
      (pred : Prediction) (runId : String) (timeout : Option Nat)
      (fs : RunFS) (o : RunOracle) (e : UncaughtExc),
      fs.reportExists = false →
      (runInstance sys logRoot spec pred runId timeout false fs o).outcome =
        .uncaught e →
      ∃ ee, e = .envError ee ∧
        (createEnv sys fs.envDirs spec.envScriptList spec.envKey none).result =
          .error ee) := by
  constructor
  · exact runInstanceTry_no_uncaught
  · intro sys logRoot spec pred runId timeout fs o e hrep hout
    unfold runInstance at hout
    simp only [Bool.false_eq_true, if_false, hrep, ite_false] at hout
    cases hc : (createEnv sys fs.envDirs spec.envScriptList spec.envKey none).result with
    | error ee =>
      rw [hc] at hout
      simp only [RunOutcome.uncaught.injEq] at hout
      exact ⟨ee, hout.symm, rfl⟩
    | ok p =>
      rw [hc] at hout
      exact absurd hout (runInstanceTry_no_uncaught _ _ _ _ _ _)

set_option maxRecDepth 400000 in
/-- C6 witness. -/
theorem c6_exceptions_contained_after_env_witness :
    ((runInstanceTry demoOracle "demo__repo-1" "/env" "/logs/d" (some 5)).outcome ≠
      .uncaught .rewriteMissingOutput) ∧
    (demoFsMiss.reportExists = false ∧
     (runInstance sysAllFail "/logs" demoSpecUvKey demoPrediction "run1"
        (some 1800) false demoFsMiss demoOracle).outcome =
      .uncaught (.envError (.procError
        "uv venv --python /usr/bin/python3.10 /root/autodl-tmp/swe_uv_envs/b5bea41b6c623f7c09f1bf")) ∧
     ∃ ee, (UncaughtExc.envError (.procError
        "uv venv --python /usr/bin/python3.10 /root/autodl-tmp/swe_uv_envs/b5bea41b6c623f7c09f1bf")) =
          .envError ee ∧
       (createEnv sysAllFail demoFsMiss.envDirs demoSpecUvKey.envScriptList
          demoSpecUvKey.envKey none).result = .error ee) := by
  refine ⟨c6_exceptions_contained_after_env.1 demoOracle "demo__repo-1" "/env"
    "/logs/d" (some 5) .rewriteMissingOutput, rfl, by decide, ?_⟩
  exact c6_exceptions_contained_after_env.2 sysAllFail "/logs" demoSpecUvKey
    demoPrediction "run1" (some 1800) demoFsMiss demoOracle _ rfl (by decide)

set_option maxRecDepth 400000 in
/-- C7 counterexample: a run whose eval script times out is skipped with the
timeout logged into the captured output, but **no** report artifact is
written — the outcome is not recorded as a report. -/
theorem c7_counterexample :
    (runInstance demoSys "/logs" demoSpecUvKey demoPrediction "run1" (some 5)
      false fsEnvCached oracleTimeout).reportWritten = none ∧
    (runInstance demoSys "/logs" demoSpecUvKey demoPrediction "run1" (some 5)
      false fsEnvCached oracleTimeout).outcome = .skipped (.timedOut 5) ∧
    (runInstance demoSys "/logs" demoSpecUvKey demoPrediction "run1" (some 5)
      false fsEnvCached oracleTimeout).evalOutContent =
      some "out\n\nTimeout error: 5 seconds exceeded." := by
  decide

/-- C7 (amended): when the eval script exceeds the wall-clock timeout the
instance is skipped — not crashed — with a timeout marker distinct from every
generic failure: the timeout message is appended to the captured test output
and the skip reason is the dedicated timeout constructor; no report artifact
is written. -/
theorem c7_timeout_recorded (o : RunOracle) (iid ep ld : String) (t : Nat)
    (i : Nat) (hto : o.evalTimesOut = true) (hrepo : o.repoRc = 0)
    (hp : firstPatchSuccess o.patchRc = some i) :
    (runInstanceTry o iid ep ld (some t)).outcome = .skipped (.timedOut t) ∧
    (runInstanceTry o iid ep ld (some t)).reportWritten = none ∧
    (runInstanceTry o iid ep ld (some t)).evalOutContent =
      some (o.evalOutput ++ "\n\nTimeout error: " ++ toString t ++
        " seconds exceeded.") ∧
    (∀ s, SkipReason.timedOut t ≠ .patchFailed s) ∧
    SkipReason.timedOut t ≠ .repoScriptError := by
  refine ⟨?_, ?_, ?_, by intro s; simp, by simp⟩ <;>
    simp [runInstanceTry, hrepo, hp, hto]

/-- C7 witness. -/
theorem c7_timeout_recorded_witness :
    oracleTimeout.evalTimesOut = true ∧ oracleTimeout.repoRc = 0 ∧
    firstPatchSuccess oracleTimeout.patchRc = some 0 ∧
    ((runInstanceTry oracleTimeout "demo__repo-1" "/env" "/logs/d" (some 5)).outcome =
        .skipped (.timedOut 5) ∧
     (runInstanceTry oracleTimeout "demo__repo-1" "/env" "/logs/d" (some 5)).reportWritten =
        none ∧
     (runInstanceTry oracleTimeout "demo__repo-1" "/env" "/logs/d" (some 5)).evalOutContent =
        some (oracleTimeout.evalOutput ++ "\n\nTimeout error: " ++ toString 5 ++
          " seconds exceeded.") ∧
     (∀ s, SkipReason.timedOut 5 ≠ .patchFailed s) ∧
     SkipReason.timedOut 5 ≠ .repoScriptError) :=
  ⟨rfl, rfl, by decide,
    c7_timeout_recorded oracleTimeout "demo__repo-1" "/env" "/logs/d" 5 0
      rfl rfl (by decide)⟩

/-- System oracle for C8: the `uv venv` command succeeds and creates the
environment directory at the cache path; every later command fails. -/
def sysPartial : SysState :=
  { run := fun c =>
      if c = "uv venv --python /usr/bin/python3.10 /root/autodl-tmp/swe_uv_envs/k8" then
        ⟨0, ["/root/autodl-tmp/swe_uv_envs/k8"]⟩
      else ⟨1, []⟩
    legacyPythonExists := false
    whichPython310 := some "/usr/bin/python3.10" }

/-- C8 (code bug): when an install command fails after the virtual environment
was created, `create_env` aborts with the process error, but the directory
**does** remain at the cache path, and a later materialization for the same
key treats the half-built environment as a cache hit and executes zero
commands — the directory-existence check is satisfied without full successful
completion. -/
theorem c8_partial_env_mistaken_cache_hit :
    (createEnv sysPartial [] ["uv pip install requests"] "uv" (some "k8")).result =
      .error (.procError "uv pip install 'pip<24' 'setuptools<60' wheel") ∧
    (createEnv sysPartial [] ["uv pip install requests"] "uv" (some "k8")).fsEnv.contains
      "/root/autodl-tmp/swe_uv_envs/k8" = true ∧
    (createEnv sysPartial
      (createEnv sysPartial [] ["uv pip install requests"] "uv" (some "k8")).fsEnv
      ["uv pip install requests"] "uv" (some "k8")).result =
      .ok "/root/autodl-tmp/swe_uv_envs/k8" ∧
    (createEnv sysPartial
      (createEnv sysPartial [] ["uv pip install requests"] "uv" (some "k8")).fsEnv
      ["uv pip install requests"] "uv" (some "k8")).executed = [] := by
  decide

/-- Helper: a successful dict lookup exhibits a pair of the association list. -/
theorem findPred_mem (ps : List (String × Prediction)) (k : String)
    (p : Prediction) (h : findPred ps k = some p) : (k, p) ∈ ps := by
  induction ps with
  | nil => simp [findPred] at h
  | cons kv rest ih =>
    obtain ⟨k', v⟩ := kv
    by_cases hk : k' = k
    · simp only [findPred, if_pos hk] at h
      obtain rfl := Option.some.inj h
      simp [hk]
    · simp only [findPred, if_neg hk] at h
      exact List.mem_cons_of_mem _ (ih h)

/-- Helper: a key listed among the prediction ids has a lookup result. -/
theorem keys_contains_findPred (ps : List (String × Prediction)) (k : String)
    (h : (ps.map (fun kv => kv.1)).contains k = true) :
    ∃ p, findPred ps k = some p := by
  induction ps with
  | nil => simp at h
  | cons kv rest ih =>
    obtain ⟨k', v⟩ := kv
    by_cases hk : k' = k
    · exact ⟨v, by simp [findPred, hk]⟩
    · have h' : (rest.map (fun kv => kv.1)).contains k = true := by
        simp only [List.map_cons, List.contains_cons, Bool.or_eq_true,
          beq_iff_eq] at h
        rcases h with h | h
        · exact absurd h.symm hk
        · simpa using h
      obtain ⟨p, hp⟩ := ih h'
      exact ⟨p, by simp [findPred, hk, hp]⟩

/-! ### Fixtures for the batch-selection theorems -/

/-- Instance with id `a`. -/
def instA : TaskInstance := { demoInst with instanceId := "a" }

/-- Instance with id `b`. -/
def instB : TaskInstance := { demoInst with instanceId := "b" }

/-- Instance with id `c`. -/
def instC : TaskInstance := { demoInst with instanceId := "c" }

/-- Predictions covering only instance `a`. -/
def predsA : List (String × Prediction) := [("a", { model := "m", patch := some "p" })]

/-- Predictions with one good patch, one empty patch, one null patch. -/
def predsMix : List (String × Prediction) :=
  [("a", { model := "m", patch := some "p" }),
   ("b", { model := "m", patch := some "" }),
   ("c", { model := "m", patch := none })]

/-- A prediction whose id is absent from every demo dataset. -/
def predsBad : List (String × Prediction) := [("z", { model := "m", patch := some "p" })]

/-- Batch filesystem with no reports and no captured outputs. -/
def demoBatchFS : BatchFS :=
  { reportExists := fun _ _ => false, testOutputExists := fun _ _ => false }

/-- C9 counterexample: requested instance id `b` has no prediction, yet
`get_dataset_from_preds` only prints the warning (returned flag `true`) and
returns the work subset normally — the run is not aborted. -/
theorem c9_counterexample :
    getDatasetFromPreds demoBatchFS [instA] ["a", "b"] predsA false true =
      .ok ([instA], true) := by
  decide

/-- C9 (amended): missing predictions for requested instance ids produce only
a console warning and such instances are excluded from the work subset by the
prediction filter; the run aborts before execution only when some prediction
id is absent from the dataset. -/
theorem c9_missing_preds_warn_only :
    (∀ (fs : BatchFS) (dataset : List TaskInstance) (instanceIds : List String)
      (preds : List (String × Prediction)) (rwMode exc : Bool),
      (∀ k ∈ preds.map (fun kv => kv.1), k ∈ dataset.map (fun i => i.instanceId)) →
      ∃ res warned,
        getDatasetFromPreds fs dataset instanceIds preds rwMode exc =
          .ok (res, warned) ∧
        ∀ i ∈ res, (findPred preds i.instanceId).isSome = true) ∧
    (∀ (fs : BatchFS) (dataset : List TaskInstance) (instanceIds : List String)
      (preds : List (String × Prediction)) (rwMode exc : Bool),
      (∃ k ∈ preds.map (fun kv => kv.1), k ∉ dataset.map (fun i => i.instanceId)) →
      ∃ msg, getDatasetFromPreds fs dataset instanceIds preds rwMode exc =
        .error msg) := by
  constructor
  · intro fs dataset instanceIds preds rwMode exc hsub
    have hbad : ((preds.map (fun kv => kv.1)).filter
        (fun k => !(dataset.map (fun i => i.instanceId)).contains k)) = [] := by
      rw [List.filter_eq_nil_iff]
      intro k hk
      simp [hsub k hk]
    unfold getDatasetFromPreds
    simp only [hbad, List.isEmpty_nil, Bool.not_true, Bool.false_eq_true,
      if_false]
    cases rwMode with
    | true =>
      refine ⟨_, _, rfl, ?_⟩
      intro i hi
      obtain ⟨hmem, hcond⟩ := List.mem_filter.mp hi
      obtain ⟨hc1, _⟩ := Bool.and_eq_true_iff.mp hcond
      obtain ⟨p, hp⟩ := keys_contains_findPred preds i.instanceId hc1
      simp [hp]
    | false =>
      refine ⟨_, _, rfl, ?_⟩
      intro i hi
      obtain ⟨hmem, hcond⟩ := List.mem_filter.mp hi
      obtain ⟨hc1, _⟩ := Bool.and_eq_true_iff.mp hcond
      obtain ⟨p, hp⟩ := keys_contains_findPred preds i.instanceId hc1
      simp [hp]
  · intro fs dataset instanceIds preds rwMode exc hex
    obtain ⟨k, hk, hnk⟩ := hex
    have hbadmem : k ∈ (preds.map (fun kv => kv.1)).filter
        (fun k => !(dataset.map (fun i => i.instanceId)).contains k) := by
      rw [List.mem_filter]
      exact ⟨hk, by simpa using hnk⟩
    have hne : ((preds.map (fun kv => kv.1)).filter
        (fun k => !(dataset.map (fun i => i.instanceId)).contains k)).isEmpty =
        false := by
      cases hemp : ((preds.map (fun kv => kv.1)).filter
          (fun k => !(dataset.map (fun i => i.instanceId)).contains k)).isEmpty with
      | false => rfl
      | true =>
        rw [List.isEmpty_iff] at hemp
        rw [hemp] at hbadmem
        simp at hbadmem
    unfold getDatasetFromPreds
    simp only [hne, Bool.not_false, if_true]
    exact ⟨_, rfl⟩

/-- C9 witness: a subset instantiation that succeeds with a warning and a
bad-id instantiation that aborts. -/
theorem c9_missing_preds_warn_only_witness :
    ((∀ k ∈ predsA.map (fun kv => kv.1), k ∈ [instA, instB].map (fun i => i.instanceId)) ∧
     ∃ res warned,
       getDatasetFromPreds demoBatchFS [instA, instB] ["a", "b"] predsA false true =
         .ok (res, warned) ∧
       ∀ i ∈ res, (findPred predsA i.instanceId).isSome = true) ∧
    ((∃ k ∈ predsBad.map (fun kv => kv.1), k ∉ [instA].map (fun i => i.instanceId)) ∧
     ∃ msg, getDatasetFromPreds demoBatchFS [instA] [] predsBad false true =
       .error msg) := by
  constructor
  · exact ⟨by decide,
      c9_missing_preds_warn_only.1 demoBatchFS [instA, instB] ["a", "b"] predsA
        false true (by decide)⟩
  · exact ⟨⟨"z", by decide, by decide⟩,
      c9_missing_preds_warn_only.2 demoBatchFS [instA] [] predsBad false true
        ⟨"z", by decide, by decide⟩⟩

/-- C10: outside rewrite mode, every instance in the returned work subset has
a prediction, that prediction's patch is neither empty nor null, and — when
completed instances are excluded (the default) — its report artifact does not
already exist on disk. -/
theorem c10_work_subset (fs : BatchFS) (dataset : List TaskInstance)
    (instanceIds : List String) (preds : List (String × Prediction))
    (exc : Bool) (res : List TaskInstance) (warned : Bool)
    (h : getDatasetFromPreds fs dataset instanceIds preds false exc =
      .ok (res, warned)) :
    ∀ i ∈ res, ∃ p, findPred preds i.instanceId = some p ∧
      p.patch ≠ some "" ∧ p.patch ≠ none ∧
      (exc = true →
        fs.reportExists (pyReplace p.model "/" "__") i.instanceId = false) := by
  unfold getDatasetFromPreds at h
  simp only [Bool.false_eq_true, if_false] at h
  by_cases hbad : ((preds.map (fun kv => kv.1)).filter
      (fun k => !(dataset.map (fun i => i.instanceId)).contains k)).isEmpty = true
  · rw [if_neg (by rw [hbad]; decide)] at h
    rw [Except.ok.injEq, Prod.mk.injEq] at h
    obtain ⟨hres, -⟩ := h
    intro i hi
    rw [← hres] at hi
    obtain ⟨hmem2, hcond⟩ := List.mem_filter.mp hi
    obtain ⟨hkeys, hnemp⟩ := Bool.and_eq_true_iff.mp hcond
    obtain ⟨p, hp⟩ := keys_contains_findPred preds i.instanceId hkeys
    have hpair := findPred_mem preds i.instanceId p hp
    have hnotempty : i.instanceId ∉
        ((preds.filter (fun kv => kv.2.patch == some "" || kv.2.patch == none)).map
          (fun kv => kv.1)) := by
      simpa using hnemp
    have hgoodpatch : ¬(p.patch == some "" || p.patch == none) = true := by
      intro hb
      exact hnotempty (List.mem_map.mpr ⟨(i.instanceId, p),
        List.mem_filter.mpr ⟨hpair, hb⟩, rfl⟩)
    refine ⟨p, hp, ?_, ?_, ?_⟩
    · intro hh
      exact hgoodpatch (by simp [hh])
    · intro hh
      exact hgoodpatch (by simp [hh])
    · intro hexc
      by_contra hrep
      rw [Bool.not_eq_false] at hrep
      have hicomp : i.instanceId ∈
          ((if (!instanceIds.isEmpty) = true then
              dataset.filter (fun i => instanceIds.contains i.instanceId)
            else dataset).filterMap (fun i =>
              match findPred preds i.instanceId with
              | none => none
              | some p =>
                if fs.reportExists (pyReplace p.model "/" "__") i.instanceId = true
                then some i.instanceId else none)) := by
        have hids1 : i ∈ (if (!instanceIds.isEmpty) = true then
            dataset.filter (fun i => instanceIds.contains i.instanceId)
          else dataset) := by
          by_cases hc2 : ((!(List.filterMap (fun i =>
              match findPred preds i.instanceId with
              | none => none
              | some p =>
                if fs.reportExists (pyReplace p.model "/" "__") i.instanceId = true
                then some i.instanceId else none)
              (if (!instanceIds.isEmpty) = true then
                dataset.filter (fun i => instanceIds.contains i.instanceId)
              else dataset)).isEmpty) && exc) = true
          · rw [if_pos hc2] at hmem2
            exact (List.mem_filter.mp hmem2).1
          · rw [if_neg hc2] at hmem2
            exact hmem2
        refine List.mem_filterMap.mpr ⟨i, hids1, ?_⟩
        simp [hp, hrep]
      by_cases hc2 : ((!(List.filterMap (fun i =>
          match findPred preds i.instanceId with
          | none => none
          | some p =>
            if fs.reportExists (pyReplace p.model "/" "__") i.instanceId = true
            then some i.instanceId else none)
          (if (!instanceIds.isEmpty) = true then
            dataset.filter (fun i => instanceIds.contains i.instanceId)
          else dataset)).isEmpty) && exc) = true
      · rw [if_pos hc2] at hmem2
        obtain ⟨-, hnc⟩ := List.mem_filter.mp hmem2
        rw [Bool.not_eq_true'] at hnc
        exact absurd hicomp (by simpa using hnc)
      · rw [Bool.and_eq_true] at hc2
        push_neg at hc2
        rcases Classical.em ((!(List.filterMap (fun i =>
            match findPred preds i.instanceId with
            | none => none
            | some p =>
              if fs.reportExists (pyReplace p.model "/" "__") i.instanceId = true
              then some i.instanceId else none)
            (if (!instanceIds.isEmpty) = true then
              dataset.filter (fun i => instanceIds.contains i.instanceId)
            else dataset)).isEmpty) = true) with hni | hni
        · exact absurd hexc (hc2 hni)
        · simp only [Bool.not_eq_true, Bool.not_eq_false'] at hni
          rw [List.isEmpty_iff] at hni
          rw [hni] at hicomp
          simp at hicomp
  · have hb2 : ((preds.map (fun kv => kv.1)).filter
        (fun k => !(dataset.map (fun i => i.instanceId)).contains k)).isEmpty =
        false := by
      rwa [Bool.not_eq_true] at hbad
    rw [if_pos (by rw [hb2]; decide)] at h
    simp at h

/-- C10 witness: of three instances, the empty-patch and null-patch ones are
dropped and the selected instance satisfies all the exclusion guarantees. -/
theorem c10_work_subset_witness :
    getDatasetFromPreds demoBatchFS [instA, instB, instC] [] predsMix false true =
      .ok ([instA], false) ∧
    ∀ i ∈ [instA], ∃ p, findPred predsMix i.instanceId = some p ∧
      p.patch ≠ some "" ∧ p.patch ≠ none ∧
      (true = true →
        demoBatchFS.reportExists (pyReplace p.model "/" "__") i.instanceId = false) :=
  ⟨by decide, fun i hi =>
    c10_work_subset demoBatchFS [instA, instB, instC] [] predsMix true [instA]
      false (by decide) i hi⟩
